import Mathlib

/-!
Shallow embedding of the NEAR index-share contract in `src/lib.rs`.

Conventions of the embedding:
* `u128` values are `Nat`; Rust arithmetic compiled with `overflow-checks`
  panics on overflow, which we model as `Except.error` with an explicit
  `2 ^ 128` bound where a multiplication, addition or subtraction can
  leave the `u128` range.
* `AccountId` is `String`; `HashMap<AccountId, _>` is an association list
  whose insert replaces an existing key, so keys stay unique and
  `List.lookup` is `HashMap::get`.
* Host-environment data (`env::current_account_id`, `predecessor`,
  `signer`) is an explicit `Env` record passed to every method.
* `assert!` / panics become `Except.error` of an `Err` constructor; the
  promise chains a method builds become explicit records of the dispatched
  actions, transfers and withdrawals, so "no call dispatched" is literally
  `Except.error`.
* The index-share quantity in `buy_token` and the per-asset amount in
  `sell_token` are computed through `f64` string parsing, division and
  `powf` in the source; floating point is outside this embedding, so those
  two computations are uninterpreted function parameters (`indexCalc`,
  `sellCalc`) of the methods that use them.
-/

deriving instance DecidableEq for Except

namespace NearIndex

abbrev AccountId := String

def U128_LIMIT : Nat := 2 ^ 128

/-- Panic/`assert!` outcomes of the contract methods. -/
inductive Err where
  | belowMinimum          -- "Attached amount is less then Minimum amount"
  | arithmeticOverflow    -- u128 arithmetic left the 128-bit range
  | insufficientShares    -- "Insufficient Index token"
  | unevenLists           -- "Uneven number of token and allocation"
  | cannotBurnAll         -- "You cannot burn all token"
  | balanceInsufficient   -- "Balance Insufficient" (checked_sub on total_supply)
  | totalSupplyOverflow   -- "Total supply overflow" (checked_add on total_supply)
  | notOwner              -- "Only Contract owner can ..." assertions
  | missingPool           -- `self.token_swap_pool.get(..).unwrap()` on None
  | missingDeposit        -- `amount_in_deposits.get(..).unwrap()` on None
deriving DecidableEq

/-- NEAR host environment visible to a method call. -/
structure Env where
  current : AccountId
  predecessor : AccountId
  signer : AccountId
deriving DecidableEq

/-- `u128` multiplication under `overflow-checks`: panic when the product
leaves the 128-bit range. -/
def checkedMul (a b : Nat) : Except Err Nat :=
  if a * b < U128_LIMIT then Except.ok (a * b) else Except.error Err.arithmeticOverflow

/-- `u128` subtraction under `overflow-checks`: panic on underflow. -/
def checkedSub (a b : Nat) : Except Err Nat :=
  if b ≤ a then Except.ok (a - b) else Except.error Err.arithmeticOverflow

/-- `u128` addition under `overflow-checks`: panic when the sum leaves the
128-bit range. -/
def checkedAdd (a b : Nat) : Except Err Nat :=
  if a + b < U128_LIMIT then Except.ok (a + b) else Except.error Err.totalSupplyOverflow

/-- `HashMap::insert`: replace the binding of `k` if present, else append. -/
def hmInsert (m : List (AccountId × Nat)) (k : AccountId) (v : Nat) :
    List (AccountId × Nat) :=
  match m with
  | [] => [(k, v)]
  | (k', v') :: rest => if k' = k then (k, v) :: rest else (k', v') :: hmInsert rest k v

/-- Fold a pair list into a `HashMap`, later entries overwriting earlier ones. -/
def buildHash (l : List (AccountId × Nat)) : List (AccountId × Nat) :=
  l.foldl (fun m kv => hmInsert m kv.1 kv.2) []

/-- `get_hash_account_U128` (src/lib.rs:101): asserts the two lists have the
same length, then inserts the pairs into a fresh `HashMap`. -/
def get_hash_account_U128 (l1 : List AccountId) (l2 : List Nat) :
    Except Err (List (AccountId × Nat)) :=
  if l1.length = l2.length then Except.ok (buildHash (l1.zip l2))
  else Except.error Err.unevenLists

/-- `.unwrap()` on an `Option` coming out of a map lookup. -/
def unwrapE (o : Option α) (e : Err) : Except Err α :=
  match o with
  | some a => Except.ok a
  | none => Except.error e

/-- Contract configuration fields used by the claims (src/lib.rs:36-51).
`token_allocation` and `token_swap_pool` are the two hash maps; `decimals`
is the metadata field read through `ft_metadata()`. -/
structure Config where
  token_allocation : List (AccountId × Nat)
  token_swap_pool : List (AccountId × Nat)
  input_token : AccountId
  min_investment : Nat
  base_price : Nat
  manager_fee_percent : Nat
  platform_fee_percent : Nat
  distributor_fee_percent : Nat
  manager : AccountId
  platform : AccountId
  distributor : AccountId
  decimals : Nat
deriving DecidableEq

/-- Share-ledger state of the `FungibleToken` field. -/
structure TokenState where
  total_supply : Nat
  accounts : List (AccountId × Nat)
deriving DecidableEq

/-- `ft_balance_of`: `accounts.get(id).unwrap_or(0)`. -/
def ftBalanceOf (tok : TokenState) (a : AccountId) : Nat :=
  (tok.accounts.lookup a).getD 0

/-- One entry of the `swap` action list sent to the venue (src/lib.rs:56-62). -/
structure Action where
  pool_id : Nat
  token_in : AccountId
  amount_in : Nat
  token_out : AccountId
  min_amount_out : Nat
deriving DecidableEq

/-- One `ft_transfer` dispatched to the input-token contract. -/
structure Transfer where
  receiver : AccountId
  amount : Nat
  msg : String
deriving DecidableEq

/-- Modelled from the spec: the fee arithmetic of `buy_token`
(src/lib.rs:314-323) written with checked `u128` operations.  The source
uses plain `*`, `+` and `-`; whether those panic or wrap on leaving the
128-bit range is decided by the crate's build profile (`overflow-checks`
in Cargo.toml), which is not part of the sources.  The spec states the
arithmetic is always checked and fails with `ArithmeticOverflow`, so the
embedding uses the checked operations. -/
def computeFees (mbp pbp dbp gross : Nat) : Except Err (Nat × Nat × Nat × Nat) := do
  let pm ← checkedMul mbp gross
  let manager_fee := pm / 10000
  let pp ← checkedMul pbp gross
  let platform_fee := pp / 10000
  let pd ← checkedMul dbp gross
  let distributor_fee := pd / 10000
  let duductionfee := manager_fee + platform_fee + distributor_fee
  let amount_after_deduction ← checkedSub gross duductionfee
  Except.ok (manager_fee, platform_fee, distributor_fee, amount_after_deduction)

/-- The action list `buy_token` builds (src/lib.rs:336-348): one `Action`
per `token_allocation` entry, with `amount_in` looked up in the
caller-supplied `amount_in_deposits` map and `min_amount_out` set to the
entry's allocation value; both `.get(..).unwrap()` calls panic on a
missing key. -/
def buildBuyActions (c : Config) (deposits : List (AccountId × Nat)) :
    List (AccountId × Nat) → Except Err (List Action)
  | [] => Except.ok []
  | (token_addr, token_perc) :: rest => do
    let pool ← unwrapE (c.token_swap_pool.lookup token_addr) Err.missingPool
    let amount_in ← unwrapE (deposits.lookup token_addr) Err.missingDeposit
    let acts ← buildBuyActions c deposits rest
    Except.ok ({ pool_id := pool, token_in := c.input_token, amount_in := amount_in,
                 token_out := token_addr, min_amount_out := token_perc } :: acts)

/-- What `buy_token` dispatches when it returns: the `ft_transfer_call`
forwarding `amount_after_deduction` to the venue, the `swap` action list,
and the arguments of the scheduled `mint_index` callback
(src/lib.rs:349-377).  `mint_amount` is the `amount` argument passed to
`mint_index`. -/
structure BuyOutcome where
  forwarded : Nat
  actions : List Action
  mint_receiver : AccountId
  mint_index_token : Nat
  mint_amount : Nat
  mint_manager_fee : Nat
  mint_platform_fee : Nat
  mint_distributor_fee : Nat
deriving DecidableEq

/-- `buy_token` (src/lib.rs:298-378).  `indexCalc net base_price decimals`
stands for the `f64` computation of `index_token_u128`
(src/lib.rs:327-332), which is not modelled further. -/
def buyToken (env : Env) (c : Config) (indexCalc : Nat → Nat → Nat → Nat)
    (amount : Nat) (token_list : List AccountId) (token_deposits : List Nat) :
    Except Err BuyOutcome := do
  if amount > c.min_investment then
    let (manager_fee, platform_fee, distributor_fee, amount_after_deduction) ←
      computeFees c.manager_fee_percent c.platform_fee_percent
        c.distributor_fee_percent amount
    let index_token := indexCalc amount_after_deduction c.base_price c.decimals
    let amount_in_deposits ← get_hash_account_U128 token_list token_deposits
    let action_list ← buildBuyActions c amount_in_deposits c.token_allocation
    Except.ok { forwarded := amount_after_deduction, actions := action_list,
                mint_receiver := env.signer, mint_index_token := index_token,
                mint_amount := amount, mint_manager_fee := manager_fee,
                mint_platform_fee := platform_fee,
                mint_distributor_fee := distributor_fee }
  else Except.error Err.belowMinimum

/-- `ft_mint` (src/lib.rs:219-255): owner check, balance `+=`, checked add
on `total_supply`.  Storage-deposit bookkeeping is host accounting and is
not modelled. -/
def ftMint (env : Env) (tok : TokenState) (receiver_id : AccountId) (amount : Nat) :
    Except Err TokenState := do
  if env.current = env.predecessor then
    let bal := ftBalanceOf tok receiver_id
    let bal' ← checkedAdd bal amount
    let supply ← checkedAdd tok.total_supply amount
    Except.ok { total_supply := supply, accounts := hmInsert tok.accounts receiver_id bal' }
  else Except.error Err.notOwner

/-- `ft_burn` (src/lib.rs:258-295): owner check, `amount < total_supply`
assertion, balance `-=` (checked under `overflow-checks`), checked sub on
`total_supply`. -/
def ftBurn (env : Env) (tok : TokenState) (account_id : AccountId) (amount : Nat) :
    Except Err TokenState := do
  if env.current = env.predecessor then
    if amount < tok.total_supply then
      let bal := ftBalanceOf tok account_id
      let bal' ← checkedSub bal amount
      if amount ≤ tok.total_supply then
        Except.ok { total_supply := tok.total_supply - amount,
                    accounts := hmInsert tok.accounts account_id bal' }
      else Except.error Err.balanceInsufficient
    else Except.error Err.cannotBurnAll
  else Except.error Err.notOwner

/-- Effects dispatched by the `mint_index` callback: venue withdrawals,
input-token transfers, and the share mint, plus the returned string. -/
structure MintIndexOutcome where
  withdrawals : List (AccountId × Nat)
  transfers : List Transfer
  minted : Option (AccountId × Nat)
  ret : String
deriving DecidableEq

/-- `mint_index` (src/lib.rs:477-533).  On a failed swap callback it
dispatches `withdraw(input_token, amount)` on the venue followed by an
`ft_transfer` of `amount` tagged as a refund, mints nothing and returns an
error string; on success it mints `index_token` to `receiver_id` and
dispatches the three fee transfers. -/
def mintIndex (env : Env) (tok : TokenState) (c : Config) (receiver_id : AccountId)
    (index_token amount manager_fee platform_fee distributor_fee : Nat)
    (call_failed : Bool) : Except Err (TokenState × MintIndexOutcome) := do
  if call_failed then
    Except.ok (tok,
      { withdrawals := [(c.input_token, amount)],
        transfers := [⟨receiver_id, amount, "Refund amount for failed Exchange"⟩],
        minted := none,
        ret := "There was a error while making exchange" })
  else
    let tok' ← ftMint env tok receiver_id index_token
    Except.ok (tok',
      { withdrawals := [],
        transfers := [⟨c.manager, manager_fee, "manager fee"⟩,
                      ⟨c.platform, platform_fee, "platform fee"⟩,
                      ⟨c.distributor, distributor_fee, "distributor fee"⟩],
        minted := some (receiver_id, index_token),
        ret := "Minted" })

/-- The action list `sell_token` builds (src/lib.rs:389-403): one `Action`
per allocation entry, swapping the constituent back into the input token
with `min_amount_out = 1`.  `sellCalc index_token decimals count` stands
for the `f64` computation of `amount_in` (src/lib.rs:394-397). -/
def buildSellActions (c : Config) (sellCalc : Nat → Nat → Nat → Nat) (index_token : Nat) :
    List (AccountId × Nat) → Except Err (List Action)
  | [] => Except.ok []
  | (token_addr, token_count) :: rest => do
    let pool ← unwrapE (c.token_swap_pool.lookup token_addr) Err.missingPool
    let acts ← buildSellActions c sellCalc index_token rest
    Except.ok ({ pool_id := pool, token_in := token_addr,
                 amount_in := sellCalc index_token c.decimals token_count,
                 token_out := c.input_token, min_amount_out := 1 } :: acts)

/-- What `sell_token` dispatches when it returns: the `swap` action list
and the arguments of the scheduled `call_withdraw_for` callback. -/
structure SellOutcome where
  actions : List Action
  withdraw_account : AccountId
  withdraw_amount : Nat
  burn_amount : Nat
deriving DecidableEq

/-- `sell_token` (src/lib.rs:381-413): asserts the signer's share balance
covers `index_token` before building any action, then dispatches the swap
and schedules `call_withdraw_for(signer, amount_to_return, index_token)`. -/
def sellToken (env : Env) (tok : TokenState) (c : Config)
    (sellCalc : Nat → Nat → Nat → Nat) (index_token amount_to_return : Nat) :
    Except Err SellOutcome := do
  if ftBalanceOf tok env.signer ≥ index_token then
    let action_list ← buildSellActions c sellCalc index_token c.token_allocation
    Except.ok { actions := action_list, withdraw_account := env.signer,
                withdraw_amount := amount_to_return, burn_amount := index_token }
  else Except.error Err.insufficientShares

/-- `burn_index` (src/lib.rs:443-474): on a failed withdraw callback it
returns an error string without burning; otherwise it calls `ft_burn`
(whose panics propagate) and dispatches the return transfer to the signer. -/
def burnIndex (env : Env) (tok : TokenState) (_c : Config) (account_id : AccountId)
    (index_token input_token_to_return : Nat) (call_failed : Bool) :
    Except Err (TokenState × List Transfer × String) := do
  if call_failed then
    Except.ok (tok, [], "There was a error while making exchange on Ref finance")
  else
    let tok' ← ftBurn env tok account_id index_token
    Except.ok (tok', [⟨env.signer, input_token_to_return, ""⟩], "Burned")

/-- `update_token_allocation` (src/lib.rs:569-571): replaces
`token_allocation` with the map built by `get_hash_account_U128`; the only
check performed is the equal-length assertion inside that helper. -/
def updateTokenAllocation (_env : Env) (c : Config) (token_list : List AccountId)
    (token_alloc : List Nat) : Except Err Config := do
  let m ← get_hash_account_U128 token_list token_alloc
  Except.ok { c with token_allocation := m }

/-- `ft_on_transfer` (src/lib.rs:594-602): always returns `0`, the number
of tokens to hand back to the sender. -/
def ftOnTransfer (_sender_id : AccountId) (_amount : Nat) (_msg : String) : Nat := 0

/-- The configuration of the worked scenario in the spec: allocation
[(A, 60, pool 1), (B, 40, pool 2)], fee schedule (100, 50, 50) bp,
minimum investment 10000, base price 100000, 24 decimals. -/
def demoCfg : Config where
  token_allocation := [("token-a.near", 60), ("token-b.near", 40)]
  token_swap_pool := [("token-a.near", 1), ("token-b.near", 2)]
  input_token := "usdc.near"
  min_investment := 10000
  base_price := 100000
  manager_fee_percent := 100
  platform_fee_percent := 50
  distributor_fee_percent := 50
  manager := "manager.near"
  platform := "platform.near"
  distributor := "distributor.near"
  decimals := 24

/-- Environment of a user-initiated call: `alice.near` calls the deployed
`index.near` contract. -/
def envAlice : Env := ⟨"index.near", "alice.near", "alice.near"⟩

/-- Environment of a `#[private]` self-callback: predecessor is the
contract itself, the original signer is still `alice.near`. -/
def envCallback : Env := ⟨"index.near", "index.near", "alice.near"⟩

/-- A stand-in for the `f64` index-token computation; the claims settled
against it do not depend on its value. -/
def zeroCalc : Nat → Nat → Nat → Nat := fun _ _ _ => 0

/- ### Helper lemmas -/

theorem except_bind_eq_ok {α β : Type} {x : Except Err α} {f : α → Except Err β} {b : β}
    (h : (x >>= f) = Except.ok b) : ∃ a, x = Except.ok a ∧ f a = Except.ok b := by
  cases x with
  | error e => simp [Bind.bind, Except.bind] at h
  | ok a => exact ⟨a, rfl, by simpa [Bind.bind, Except.bind] using h⟩

theorem except_bind_error {α β : Type} {x : Except Err α} {f : α → Except Err β} {e : Err}
    (h : x = Except.error e) : (x >>= f) = Except.error e := by
  subst h; rfl

/-- `computeFees` fails with `arithmeticOverflow` as soon as one of the
three `rate * gross` products leaves the `u128` range. -/
theorem computeFees_overflow (mbp pbp dbp g : Nat)
    (hovf : U128_LIMIT ≤ mbp * g ∨ U128_LIMIT ≤ pbp * g ∨ U128_LIMIT ≤ dbp * g) :
    computeFees mbp pbp dbp g = Except.error Err.arithmeticOverflow := by
  unfold computeFees checkedMul
  by_cases h1 : mbp * g < U128_LIMIT
  · by_cases h2 : pbp * g < U128_LIMIT
    · by_cases h3 : dbp * g < U128_LIMIT
      · omega
      · simp [h1, h2, h3, Bind.bind, Except.bind]
    · simp [h1, h2, Bind.bind, Except.bind]
  · simp [h1, Bind.bind, Except.bind]

theorem unwrapE_eq_ok {α : Type} {o : Option α} {e : Err} {v : α}
    (h : unwrapE o e = Except.ok v) : o = some v := by
  cases o with
  | none => simp [unwrapE] at h
  | some a => simpa [unwrapE] using h

/-- Inversion of a successful `buy_token` run: the minimum check passed,
the fee computation, deposit-map construction and action-list construction
all succeeded, and the outcome record is built from their results — in
particular the `mint_index` callback gets the gross `amount`, while the
`ft_transfer_call` forwards the net amount. -/
theorem buyToken_ok_inv {env : Env} {c : Config} {indexCalc : Nat → Nat → Nat → Nat}
    {amount : Nat} {token_list : List AccountId} {token_deposits : List Nat}
    {o : BuyOutcome}
    (h : buyToken env c indexCalc amount token_list token_deposits = Except.ok o) :
    amount > c.min_investment ∧
    ∃ mf pf df net deposits,
      computeFees c.manager_fee_percent c.platform_fee_percent
        c.distributor_fee_percent amount = Except.ok (mf, pf, df, net) ∧
      get_hash_account_U128 token_list token_deposits = Except.ok deposits ∧
      buildBuyActions c deposits c.token_allocation = Except.ok o.actions ∧
      o = { forwarded := net, actions := o.actions, mint_receiver := env.signer,
            mint_index_token := indexCalc net c.base_price c.decimals,
            mint_amount := amount, mint_manager_fee := mf,
            mint_platform_fee := pf, mint_distributor_fee := df } := by
  unfold buyToken at h
  split at h
  · next hmin =>
    refine ⟨hmin, ?_⟩
    obtain ⟨q, hq, h⟩ := except_bind_eq_ok h
    obtain ⟨mf, pf, df, net⟩ := q
    obtain ⟨deposits, hdeps, h⟩ := except_bind_eq_ok h
    obtain ⟨acts, hacts, h⟩ := except_bind_eq_ok h
    rw [Except.ok.injEq] at h
    refine ⟨mf, pf, df, net, deposits, hq, hdeps, ?_, ?_⟩
    · rw [← h]; exact hacts
    · rw [← h]
  · exact absurd h (by simp)

/-- The outcome of the spec's worked issuance scenario run through the
code: deposit 100000 with caller-supplied per-asset deposits
(58800, 39200); the callback receives the gross amount 100000 while only
the net 98000 was forwarded. -/
def demoBuyOutcome : BuyOutcome where
  forwarded := 98000
  actions := [⟨1, "usdc.near", 58800, "token-a.near", 60⟩,
              ⟨2, "usdc.near", 39200, "token-b.near", 40⟩]
  mint_receiver := "alice.near"
  mint_index_token := 0
  mint_amount := 100000
  mint_manager_fee := 1000
  mint_platform_fee := 500
  mint_distributor_fee := 500

/- ### Claim theorems -/

/-- Claim C1 (amended): when the swap callback reports failure,
`mint_index` withdraws from the venue and refunds to the depositor the
gross deposit amount — the `amount` argument, which `buy_token` sets to
the full pre-fee deposit — not the net amount that was actually forwarded;
no shares are minted and the share ledger is unchanged. -/
theorem mint_index_failure_refunds_gross :
    (∀ (env : Env) (tok : TokenState) (c : Config) (receiver_id : AccountId)
        (index_token amount mf pf df : Nat),
      mintIndex env tok c receiver_id index_token amount mf pf df true =
        Except.ok (tok,
          { withdrawals := [(c.input_token, amount)],
            transfers := [⟨receiver_id, amount, "Refund amount for failed Exchange"⟩],
            minted := none, ret := "There was a error while making exchange" })) ∧
    (∀ (env : Env) (c : Config) (indexCalc : Nat → Nat → Nat → Nat) (amount : Nat)
        (token_list : List AccountId) (token_deposits : List Nat) (o : BuyOutcome),
      buyToken env c indexCalc amount token_list token_deposits = Except.ok o →
        o.mint_amount = amount ∧ o.mint_receiver = env.signer) := by
  constructor
  · intro env tok c receiver_id index_token amount mf pf df
    rfl
  · intro env c indexCalc amount token_list token_deposits o h
    obtain ⟨-, mf, pf, df, net, deposits, -, -, -, ho⟩ := buyToken_ok_inv h
    rw [ho]
    exact ⟨rfl, rfl⟩

/-- Witness for the amended C1 at the worked scenario. -/
theorem mint_index_failure_refunds_gross_witness :
    demoBuyOutcome.mint_amount = 100000 ∧
    demoBuyOutcome.mint_receiver = "alice.near" ∧
    mintIndex envCallback ⟨0, []⟩ demoCfg "alice.near" 0 100000 1000 500 500 true =
      Except.ok (⟨0, []⟩,
        { withdrawals := [("usdc.near", 100000)],
          transfers := [⟨"alice.near", 100000, "Refund amount for failed Exchange"⟩],
          minted := none, ret := "There was a error while making exchange" }) := by
  have h2 := (mint_index_failure_refunds_gross.2 envAlice demoCfg zeroCalc 100000
    ["token-a.near", "token-b.near"] [58800, 39200] demoBuyOutcome (by decide))
  exact ⟨h2.1, h2.2, mint_index_failure_refunds_gross.1 envCallback ⟨0, []⟩ demoCfg
    "alice.near" 0 100000 1000 500 500⟩

/-- Counterexample to C1 as stated: in the worked scenario the net amount
forwarded to the venue is 98000, but the failure path of `mint_index`
transfers 100000 — the gross deposit — back to the depositor, not the
forwarded net amount. -/
theorem mint_index_refund_differs_from_forwarded :
    (buyToken envAlice demoCfg zeroCalc 100000
        ["token-a.near", "token-b.near"] [58800, 39200]) = Except.ok demoBuyOutcome ∧
    demoBuyOutcome.forwarded = 98000 ∧
    (mintIndex envCallback ⟨0, []⟩ demoCfg "alice.near" demoBuyOutcome.mint_index_token
        demoBuyOutcome.mint_amount 1000 500 500 true).map (fun r => r.2.transfers) =
      Except.ok [⟨"alice.near", 100000, "Refund amount for failed Exchange"⟩] ∧
    (100000 : Nat) ≠ 98000 := by decide

theorem buildBuyActions_mem (c : Config) (deposits : List (AccountId × Nat)) :
    ∀ (l : List (AccountId × Nat)) (acts : List Action),
      buildBuyActions c deposits l = Except.ok acts →
      ∀ a ∈ acts, (a.token_out, a.min_amount_out) ∈ l ∧
        deposits.lookup a.token_out = some a.amount_in ∧
        c.token_swap_pool.lookup a.token_out = some a.pool_id ∧
        a.token_in = c.input_token := by
  intro l
  induction l with
  | nil =>
    intro acts h a ha
    rw [buildBuyActions, Except.ok.injEq] at h
    rw [← h] at ha
    simp at ha
  | cons hd tl ih =>
    intro acts h a ha
    obtain ⟨addr, perc⟩ := hd
    rw [buildBuyActions] at h
    obtain ⟨pool, hpool, h⟩ := except_bind_eq_ok h
    obtain ⟨dep, hdep, h⟩ := except_bind_eq_ok h
    obtain ⟨rest, hrest, h⟩ := except_bind_eq_ok h
    rw [Except.ok.injEq] at h
    rw [← h] at ha
    rcases List.mem_cons.mp ha with heq | hmem
    · subst heq
      exact ⟨List.mem_cons_self _ _, unwrapE_eq_ok hdep, unwrapE_eq_ok hpool, rfl⟩
    · obtain ⟨h1, h2, h3, h4⟩ := ih rest hrest a hmem
      exact ⟨List.mem_cons_of_mem _ h1, h2, h3, h4⟩

theorem get_hash_account_U128_ok {l1 : List AccountId} {l2 : List Nat}
    {m : List (AccountId × Nat)} (h : get_hash_account_U128 l1 l2 = Except.ok m) :
    m = buildHash (l1.zip l2) := by
  unfold get_hash_account_U128 at h
  split at h
  · exact (Except.ok.injEq _ _ ▸ h).symm
  · exact absurd h (by simp)

/-- Claim C3 (amended): `buy_token` computes no weight-based split.  Every
action dispatched to the venue takes its `amount_in` from the
caller-supplied `token_deposits` map, pairs the allocation entry's weight
as `min_amount_out`, uses the configured pool for that asset and swaps
from the input token. -/
theorem buy_swap_amounts_are_caller_deposits (env : Env) (c : Config)
    (indexCalc : Nat → Nat → Nat → Nat) (amount : Nat)
    (token_list : List AccountId) (token_deposits : List Nat) (o : BuyOutcome)
    (h : buyToken env c indexCalc amount token_list token_deposits = Except.ok o) :
    ∀ a ∈ o.actions,
      (a.token_out, a.min_amount_out) ∈ c.token_allocation ∧
      (buildHash (token_list.zip token_deposits)).lookup a.token_out = some a.amount_in ∧
      c.token_swap_pool.lookup a.token_out = some a.pool_id ∧
      a.token_in = c.input_token := by
  obtain ⟨-, mf, pf, df, net, deposits, -, hdeps, hacts, -⟩ := buyToken_ok_inv h
  rw [get_hash_account_U128_ok hdeps] at hacts
  exact buildBuyActions_mem c _ c.token_allocation o.actions hacts

/-- Witness for the amended C3: in the worked scenario the dispatched
action for asset A carries the caller-supplied deposit 58800 as
`amount_in` and the weight 60 as `min_amount_out`. -/
theorem buy_swap_amounts_witness :
    ("token-a.near", (60 : Nat)) ∈ demoCfg.token_allocation ∧
    (buildHash (["token-a.near", "token-b.near"].zip [58800, 39200])).lookup
      "token-a.near" = some 58800 ∧
    demoCfg.token_swap_pool.lookup "token-a.near" = some 1 ∧
    "usdc.near" = demoCfg.input_token :=
  buy_swap_amounts_are_caller_deposits envAlice demoCfg zeroCalc 100000
    ["token-a.near", "token-b.near"] [58800, 39200] demoBuyOutcome (by decide)
    ⟨1, "usdc.near", 58800, "token-a.near", 60⟩ (by decide)

/-- Counterexample to C3 as stated: with the scenario allocation
(weights 60/40), fee schedule (100, 50, 50) bp and gross amount 100000,
the net amount is 98000, yet when the caller supplies deposits (1, 1) the
dispatched swap amounts are (1, 1), not the weight split (58800, 39200)
the claim requires. -/
theorem buy_no_weight_split_counterexample :
    (buyToken envAlice demoCfg zeroCalc 100000
        ["token-a.near", "token-b.near"] [1, 1]).map BuyOutcome.forwarded =
      Except.ok 98000 ∧
    (buyToken envAlice demoCfg zeroCalc 100000
        ["token-a.near", "token-b.near"] [1, 1]).map
      (fun o => o.actions.map Action.amount_in) = Except.ok [1, 1] ∧
    (1 : Nat) ≠ 60 * 98000 / 100 := by decide

/-- Claim C2: whenever the fee schedule's three basis-point rates sum to
less than 10000 and the three `rate_bp * gross_amount` products stay in
the `u128` range (so that `buy_token` computes fees at all, cf. C7), each
fee computed in `buy_token` equals `rate_bp * gross_amount / 10000` with
truncating division, the three fees sum to at most `gross_amount`, and
the net amount equals `gross_amount` minus the sum of the three fees
exactly. -/
theorem buy_fee_arithmetic (mbp pbp dbp g : Nat) (hsum : mbp + pbp + dbp < 10000)
    (hm : mbp * g < U128_LIMIT) (hp : pbp * g < U128_LIMIT) (hd : dbp * g < U128_LIMIT) :
    computeFees mbp pbp dbp g =
      Except.ok (mbp * g / 10000, pbp * g / 10000, dbp * g / 10000,
        g - (mbp * g / 10000 + pbp * g / 10000 + dbp * g / 10000)) ∧
      mbp * g / 10000 + pbp * g / 10000 + dbp * g / 10000 ≤ g := by
  have k1 : mbp * g / 10000 * 10000 ≤ mbp * g := Nat.div_mul_le_self _ _
  have k2 : pbp * g / 10000 * 10000 ≤ pbp * g := Nat.div_mul_le_self _ _
  have k3 : dbp * g / 10000 * 10000 ≤ dbp * g := Nat.div_mul_le_self _ _
  have hle : mbp * g / 10000 + pbp * g / 10000 + dbp * g / 10000 ≤ g := by
    have hmul : (mbp * g / 10000 + pbp * g / 10000 + dbp * g / 10000) * 10000 ≤ g * 10000 := by
      calc (mbp * g / 10000 + pbp * g / 10000 + dbp * g / 10000) * 10000
          = mbp * g / 10000 * 10000 + pbp * g / 10000 * 10000 + dbp * g / 10000 * 10000 := by
            ring
        _ ≤ mbp * g + pbp * g + dbp * g := by omega
        _ = (mbp + pbp + dbp) * g := by ring
        _ ≤ 9999 * g := Nat.mul_le_mul_right g (by omega)
        _ ≤ g * 10000 := by
            rw [Nat.mul_comm g 10000]; exact Nat.mul_le_mul_right g (by norm_num)
    exact Nat.le_of_mul_le_mul_right hmul (by norm_num)
  refine ⟨?_, hle⟩
  unfold computeFees checkedMul checkedSub
  simp [hm, hp, hd, hle, Bind.bind, Except.bind]

/-- Witness for C2 at the spec's worked scenario: rates (100, 50, 50) bp
and gross amount 100000 give fees 1000, 500, 500 and net 98000. -/
theorem buy_fee_arithmetic_witness :
    computeFees 100 50 50 100000 =
      Except.ok (100 * 100000 / 10000, 50 * 100000 / 10000, 50 * 100000 / 10000,
        100000 - (100 * 100000 / 10000 + 50 * 100000 / 10000 + 50 * 100000 / 10000)) ∧
      100 * 100000 / 10000 + 50 * 100000 / 10000 + 50 * 100000 / 10000 ≤ 100000 :=
  buy_fee_arithmetic 100 50 50 100000 (by norm_num) (by norm_num [U128_LIMIT])
    (by norm_num [U128_LIMIT]) (by norm_num [U128_LIMIT])

/-- Claim C7: if one of the `rate_bp * gross_amount` products leaves the
`u128` range, `buy_token` fails with the arithmetic-overflow error instead
of wrapping, and returns without dispatching any transfer, swap or mint
callback (an `Except.error` result carries no dispatched effects). -/
theorem buy_overflow_aborts (env : Env) (c : Config) (indexCalc : Nat → Nat → Nat → Nat)
    (amount : Nat) (token_list : List AccountId) (token_deposits : List Nat)
    (hmin : amount > c.min_investment)
    (hovf : U128_LIMIT ≤ c.manager_fee_percent * amount ∨
      U128_LIMIT ≤ c.platform_fee_percent * amount ∨
      U128_LIMIT ≤ c.distributor_fee_percent * amount) :
    buyToken env c indexCalc amount token_list token_deposits =
      Except.error Err.arithmeticOverflow := by
  unfold buyToken
  rw [if_pos hmin]
  exact except_bind_error (computeFees_overflow _ _ _ _ hovf)

/-- Witness for C7: a 100% manager rate and a deposit of `2 ^ 125` make
`rate_bp * gross_amount` exceed `2 ^ 128`, and `buy_token` aborts with the
overflow error. -/
theorem buy_overflow_aborts_witness :
    buyToken envAlice
      { demoCfg with manager_fee_percent := 10000, min_investment := 0 }
      zeroCalc (2 ^ 125) [] [] = Except.error Err.arithmeticOverflow :=
  buy_overflow_aborts _ _ _ _ _ _ (by norm_num)
    (Or.inl (by norm_num [U128_LIMIT, demoCfg]))

/-- Claim C4 (divergence): with the minimum investment configured at
10000, a gross amount of exactly 10000 is rejected by `buy_token` — the
assertion at src/lib.rs:310 uses strict `>`, so equality with the minimum
panics with "Attached amount is less then Minimum amount", although the
amount is not less than the minimum. -/
theorem buy_rejects_exact_minimum :
    buyToken envAlice demoCfg zeroCalc 10000
      ["token-a.near", "token-b.near"] [5880, 3920] =
      Except.error Err.belowMinimum := by decide

/-- Claim C9: `ft_on_transfer` returns 0 for every sender, amount and
message, so no portion of tokens transferred in via `ft_transfer_call` is
ever handed back to the sender. -/
theorem ft_on_transfer_zero (sender_id : AccountId) (amount : Nat) (msg : String) :
    ftOnTransfer sender_id amount msg = 0 := rfl

/-- Claim C5 (amended): `update_token_allocation` checks neither the
caller nor duplicate asset ids.  It fails only when the two lists have
different lengths — leaving the stored allocation unchanged, since no new
state is produced — and for equal lengths it succeeds for every caller,
with a duplicated asset id resolved by the later entry overwriting the
earlier one in the built map. -/
theorem update_token_allocation_behavior :
    ∀ (env : Env) (c : Config) (token_list : List AccountId) (token_alloc : List Nat),
      (token_list.length ≠ token_alloc.length →
        updateTokenAllocation env c token_list token_alloc =
          Except.error Err.unevenLists) ∧
      (token_list.length = token_alloc.length →
        updateTokenAllocation env c token_list token_alloc =
          Except.ok { c with token_allocation := buildHash (token_list.zip token_alloc) }) := by
  intro env c token_list token_alloc
  constructor
  · intro hne
    unfold updateTokenAllocation get_hash_account_U128
    rw [if_neg hne]
    rfl
  · intro heq
    unfold updateTokenAllocation get_hash_account_U128
    rw [if_pos heq]
    rfl

/-- Witness for the amended C5: a one-element asset list with an empty
weight list is rejected with the uneven-lists panic. -/
theorem update_token_allocation_behavior_witness :
    updateTokenAllocation envCallback demoCfg ["token-a.near"] [] =
      Except.error Err.unevenLists :=
  (update_token_allocation_behavior envCallback demoCfg ["token-a.near"] []).1 (by decide)

/-- Counterexample to C5 as stated: a call with a duplicate asset id made
by `alice.near`, who is not the contract account, neither fails with an
invalid-allocation error nor with an authorization error — it succeeds and
stores the later duplicate's weight. -/
theorem update_token_allocation_counterexample :
    updateTokenAllocation envAlice demoCfg ["token-a.near", "token-a.near"] [1, 2] =
      Except.ok { demoCfg with token_allocation := [("token-a.near", 2)] } := by decide

/-- Claim C8: a redemption whose requested share quantity exceeds the
signer's share balance fails with the insufficient-shares panic; the
`Except.error` result means `sell_token` returns before building or
dispatching any swap action. -/
theorem sell_insufficient_shares (env : Env) (tok : TokenState) (c : Config)
    (sellCalc : Nat → Nat → Nat → Nat) (index_token amount_to_return : Nat)
    (h : ftBalanceOf tok env.signer < index_token) :
    sellToken env tok c sellCalc index_token amount_to_return =
      Except.error Err.insufficientShares := by
  unfold sellToken
  rw [if_neg (by omega)]

/-- Witness for C8: `alice.near` holds 5 shares and requests 10. -/
theorem sell_insufficient_shares_witness :
    sellToken envAlice ⟨100, [("alice.near", 5)]⟩ demoCfg zeroCalc 10 10 =
      Except.error Err.insufficientShares :=
  sell_insufficient_shares envAlice ⟨100, [("alice.near", 5)]⟩ demoCfg zeroCalc 10 10
    (by decide)

/-- Claim C10: `ft_burn` panics unless the burned amount is strictly below
the current total supply, so every successful burn leaves the total supply
strictly positive; consequently `burn_index` — the redemption step that
burns shares — can never complete when the share quantity equals the whole
outstanding supply. -/
theorem ft_burn_supply_stays_positive :
    ∀ (env : Env) (tok : TokenState) (account_id : AccountId) (amount : Nat),
      env.current = env.predecessor →
      (tok.total_supply ≤ amount →
        ftBurn env tok account_id amount = Except.error Err.cannotBurnAll) ∧
      (∀ tok', ftBurn env tok account_id amount = Except.ok tok' →
        tok'.total_supply = tok.total_supply - amount ∧ 0 < tok'.total_supply) ∧
      (∀ (c : Config) (ret : Nat),
        burnIndex env tok c account_id tok.total_supply ret false =
          Except.error Err.cannotBurnAll) := by
  intro env tok account_id amount henv
  have hburn_all : ∀ amt, tok.total_supply ≤ amt →
      ftBurn env tok account_id amt = Except.error Err.cannotBurnAll := by
    intro amt hle
    unfold ftBurn
    rw [if_pos henv, if_neg (by omega)]
  refine ⟨hburn_all amount, ?_, ?_⟩
  · intro tok' h
    unfold ftBurn at h
    rw [if_pos henv] at h
    split at h
    · next hlt =>
      obtain ⟨bal', hbal, h⟩ := except_bind_eq_ok h
      rw [if_pos (show amount ≤ tok.total_supply from le_of_lt hlt),
        Except.ok.injEq] at h
      rw [← h]
      refine ⟨rfl, ?_⟩
      show 0 < tok.total_supply - amount
      omega
    · exact absurd h (by simp)
  · intro c ret
    unfold burnIndex
    simp only [Bool.false_eq_true, if_false]
    exact except_bind_error (hburn_all tok.total_supply (le_refl _))

/-- Witness for C10: with total supply 100, burning all 100 shares through
`ft_burn` fails, a burn of 40 leaves supply 60 > 0, and `burn_index` for
the full supply fails. -/
theorem ft_burn_supply_stays_positive_witness :
    ftBurn envCallback ⟨100, [("alice.near", 100)]⟩ "alice.near" 100 =
      Except.error Err.cannotBurnAll ∧
    (⟨60, [("alice.near", 60)]⟩ : TokenState).total_supply =
        (⟨100, [("alice.near", 100)]⟩ : TokenState).total_supply - 40 ∧
      0 < (⟨60, [("alice.near", 60)]⟩ : TokenState).total_supply ∧
    burnIndex envCallback ⟨100, [("alice.near", 100)]⟩ demoCfg "alice.near" 100 7 false =
      Except.error Err.cannotBurnAll := by
  have h := ft_burn_supply_stays_positive envCallback ⟨100, [("alice.near", 100)]⟩
    "alice.near" 40 (by decide)
  exact ⟨(ft_burn_supply_stays_positive envCallback ⟨100, [("alice.near", 100)]⟩
      "alice.near" 100 (by decide)).1 (by decide),
    (h.2.1 ⟨60, [("alice.near", 60)]⟩ (by decide)).1,
    (h.2.1 ⟨60, [("alice.near", 60)]⟩ (by decide)).2,
    h.2.2 demoCfg 7⟩

end NearIndex
